import Mathlib

/-!
Verification development for the `sticky-notes-integration` GNOME Shell
extension.  The JavaScript sources are shallowly embedded: the window-actor
list of the compositor, the settings store and subprocess spawning become explicit
parameters, machine state becomes explicit record state, and fallible
operations return `Except`.  Each definition mirrors one function of the
repository.
-/

set_option maxHeartbeats 1000000

/-- A `Meta.Window`, reduced to the fields the extension reads:
`get_wm_class()` and `is_hidden()`. -/
structure MetaWindow where
  wm_class : String
  hidden : Bool
deriving DecidableEq, Repr

/-- A compositor window actor (`global.get_window_actors()` element); its only
use in the sources is `actor.get_meta_window()`. -/
structure WindowActor where
  meta_window : MetaWindow
deriving DecidableEq, Repr

/-- Embeds `actor.get_meta_window()`. -/
def WindowActor.get_meta_window (a : WindowActor) : MetaWindow :=
  a.meta_window

/-- Embeds `window.get_wm_class()`. -/
def MetaWindow.get_wm_class (w : MetaWindow) : String :=
  w.wm_class

/-- Embeds `window.is_hidden()`. -/
def MetaWindow.is_hidden (w : MetaWindow) : Bool :=
  w.hidden

namespace MultiWindowHandler

/-- Loop body of `MultiWindowHandler.get`: walk the (possibly reversed) actor
list, pushing windows whose `WM_CLASS` matches, and break once `n` is truthy
and the running count has reached `n` (`n` is a JS number, hence `Int`). -/
def getLoop (wm_class : String) (n : Int) : List WindowActor → Nat → List MetaWindow
  | [], _ => []
  | actor :: rest, wcount =>
      let window := actor.get_meta_window
      if window.get_wm_class == wm_class then
        if n ≠ 0 ∧ ((wcount : Int) + 1 ≥ n) then
          [window]
        else
          window :: getLoop wm_class n rest (wcount + 1)
      else
        getLoop wm_class n rest wcount

/-- Embeds `MultiWindowHandler.get(wm_class, n = 0, newer_first = false)`:
reverses the actor list when `newer_first`, then runs the filtering loop. -/
def get (actors : List WindowActor) (wm_class : String) (n : Int) (newer_first : Bool) :
    List MetaWindow :=
  getLoop wm_class n (if newer_first then actors.reverse else actors) 0

/-- Loop body of `MultiWindowHandler.count`: skip hidden windows when
`active_only`, count `WM_CLASS` matches. -/
def countLoop (wm_class : String) (active_only : Bool) : List WindowActor → Nat
  | [] => 0
  | actor :: rest =>
      let window := actor.get_meta_window
      if active_only = true ∧ window.is_hidden = true then
        countLoop wm_class active_only rest
      else if window.get_wm_class == wm_class then
        countLoop wm_class active_only rest + 1
      else
        countLoop wm_class active_only rest

/-- Embeds `MultiWindowHandler.count(wm_class, active_only = false)`. -/
def count (actors : List WindowActor) (wm_class : String) (active_only : Bool) : Nat :=
  countLoop wm_class active_only actors

/-- The windows matching `wm_class`, in actor-list order: the reference
filtering that `get` and `count` are compared against. -/
def matching (actors : List WindowActor) (wm_class : String) : List MetaWindow :=
  (actors.map WindowActor.get_meta_window).filter (fun w => w.get_wm_class == wm_class)

theorem getLoop_zero (c : String) (l : List WindowActor) (k : Nat) :
    getLoop c 0 l k = matching l c := by
  induction l generalizing k with
  | nil => simp [getLoop, matching]
  | cons a rest ih =>
      by_cases h : a.get_meta_window.get_wm_class = c
      · simp [getLoop, matching, h, ih]
      · simp [getLoop, matching, h, ih (k := k)]

theorem getLoop_pos (c : String) (n : Int) (hn : 0 < n) (l : List WindowActor) (k : Nat)
    (hk : (k : Int) < n) :
    getLoop c n l k = (matching l c).take (n.toNat - k) := by
  induction l generalizing k with
  | nil => simp [getLoop, matching]
  | cons a rest ih =>
      by_cases h : a.get_meta_window.get_wm_class = c
      · by_cases hbreak : (k : Int) + 1 ≥ n
        · have hkn : n.toNat - k = 1 := by omega
          simp [getLoop, matching, h, hn.ne', hbreak, hkn]
        · have hk1 : ((k + 1 : Nat) : Int) < n := by push_cast; omega
          have hkn : n.toNat - k = (n.toNat - (k + 1)) + 1 := by omega
          simp only [getLoop, h, beq_self_eq_true, if_true]
          rw [if_neg (by omega)]
          rw [ih (k + 1) hk1]
          simp [matching, h, hkn]
      · simp only [getLoop, matching] at *
        have hne : (a.get_meta_window.get_wm_class == c) = false := by
          simpa using h
        simp [hne, ih k hk]

theorem getLoop_neg (c : String) (n : Int) (hn : n < 0) (l : List WindowActor) (k : Nat) :
    getLoop c n l k = (matching l c).take 1 := by
  induction l generalizing k with
  | nil => simp [getLoop, matching]
  | cons a rest ih =>
      by_cases h : a.get_meta_window.get_wm_class = c
      · have hbreak : (k : Int) + 1 ≥ n := by omega
        simp [getLoop, matching, h, hn.ne, hbreak]
      · simp [getLoop, matching, h, ih k]

theorem matching_reverse (actors : List WindowActor) (c : String) :
    matching actors.reverse c = (matching actors c).reverse := by
  simp [matching, List.filter_reverse, List.map_reverse]

/-- C1.  `MultiWindowHandler.get` returns exactly the matching windows, in
stacking order (reversed when `newer_first`), all of them when `n = 0` and the
first `n` of them when `n > 0`. -/
theorem get_matches_filter_take (actors : List WindowActor) (wm_class : String)
    (n : Nat) (newer_first : Bool) :
    get actors wm_class (n : Int) newer_first =
      (if n = 0 then id else fun l => List.take n l)
        (matching (if newer_first then actors.reverse else actors) wm_class) := by
  rcases Nat.eq_zero_or_pos n with h0 | hpos
  · subst h0
    simp [get, getLoop_zero]
  · have hn : (0 : Int) < (n : Int) := by exact_mod_cast hpos
    have := getLoop_pos wm_class (n : Int) hn
      (if newer_first then actors.reverse else actors) 0 (by exact_mod_cast hpos)
    simp only [get, this, Nat.sub_zero, Int.toNat_natCast]
    simp [hpos.ne']

theorem countLoop_eq_matching_length (c : String) (l : List WindowActor) :
    countLoop c false l = (matching l c).length := by
  induction l with
  | nil => simp [countLoop, matching]
  | cons a rest ih =>
      by_cases h : a.get_meta_window.get_wm_class = c
      · simp [countLoop, matching, h, ih]
      · simp [countLoop, matching, h, ih]

/-- C8.  `MultiWindowHandler.count(wm_class, false)` equals the length of
`MultiWindowHandler.get(wm_class, 0, newer_first)`, for either value of
`newer_first`. -/
theorem count_eq_get_length (actors : List WindowActor) (wm_class : String) :
    count actors wm_class false = (get actors wm_class 0 false).length ∧
    count actors wm_class false = (get actors wm_class 0 true).length := by
  constructor
  · simp [count, countLoop_eq_matching_length, get, getLoop_zero]
  · simp [count, countLoop_eq_matching_length, get, getLoop_zero, matching_reverse]

end MultiWindowHandler

/-! ### `lib/utils.js` -/

/-- JS truthiness of a numeric handler id: `null`/`undefined` (`none`) and `0`
are falsy, every other number is truthy. -/
def truthy_id : Option Int → Bool
  | none => false
  | some x => x != 0

/-- Embeds `safe_disconnect(handler_id, instance)`.  The instance appears as its
`disconnect` method `d`, which either succeeds or raises.  The second
component records which disconnect calls were attempted.  The JS `try/catch`
makes the function total: it always returns a boolean. -/
def safe_disconnect (handler_id : Option Int) (d : Int → Except String Unit) :
    Bool × List Int :=
  match handler_id with
  | none => (true, [])
  | some id =>
      if id != 0 then
        match d id with
        | Except.ok _ => (true, [id])
        | Except.error _ => (false, [id])
      else
        (true, [])

/-- C10.  `safe_disconnect` returns `true` without attempting any disconnect
when the handler id is falsy, and returns `false` when the disconnect call it
attempts raises; totality of the embedding reflects that no exception
escapes. -/
theorem safe_disconnect_spec (h : Option Int) (d : Int → Except String Unit) :
    (truthy_id h = false → safe_disconnect h d = (true, [])) ∧
    (∀ id e, h = some id → truthy_id h = true → d id = Except.error e →
      (safe_disconnect h d).1 = false) := by
  constructor
  · intro hf
    match h with
    | none => rfl
    | some id =>
        simp [truthy_id] at hf
        simp [safe_disconnect, hf]
  · intro id e hid ht herr
    subst hid
    simp [truthy_id] at ht
    simp [safe_disconnect, ht, herr]

/-- Witness for C10 at a concrete failing disconnect. -/
theorem safe_disconnect_spec_witness :
    (safe_disconnect (some 5) (fun _ => Except.error "boom")).1 = false := by
  exact (safe_disconnect_spec (some 5) (fun _ => Except.error "boom")).2 5 "boom"
    rfl (by decide) rfl

/-- Loop body of `first_available`, which walks the command list from the last
index down to 0 (embedded as a walk over the reversed list). -/
def firstAvailLoop (avail : String → Bool) : List String → Option String
  | [] => none
  | c :: rest => if avail c then some c else firstAvailLoop avail rest

/-- Embeds `first_available(commands)`; command availability
(`GLib.find_program_in_path`) is embedded as the predicate `avail`. -/
def first_available (avail : String → Bool) (commands : List String) : Option String :=
  firstAvailLoop avail commands.reverse

theorem firstAvailLoop_eq_head_filter (avail : String → Bool) (l : List String) :
    firstAvailLoop avail l = (l.filter avail).head? := by
  induction l with
  | nil => rfl
  | cons c rest ih =>
      by_cases h : avail c = true
      · simp [firstAvailLoop, h]
      · simp only [Bool.not_eq_true] at h
        simp [firstAvailLoop, h, ih]

/-- C9.  `first_available` returns the available command with the greatest
index in the list (the last available one), and `null` exactly when no command
in the list is available. -/
theorem first_available_spec (avail : String → Bool) (commands : List String) :
    first_available avail commands = (commands.filter avail).getLast? ∧
    (first_available avail commands = none ↔ ∀ c ∈ commands, avail c = false) := by
  have hmain : first_available avail commands = (commands.filter avail).getLast? := by
    rw [first_available, firstAvailLoop_eq_head_filter, List.filter_reverse,
      List.head?_reverse]
  refine ⟨hmain, ?_⟩
  rw [hmain]
  constructor
  · intro hnone c hc
    by_contra hav
    simp only [Bool.not_eq_false] at hav
    have hmem : c ∈ commands.filter avail := List.mem_filter.mpr ⟨hc, hav⟩
    have hne : commands.filter avail ≠ [] := List.ne_nil_of_mem hmem
    rw [List.getLast?_eq_none_iff] at hnone
    exact hne hnone
  · intro hall
    rw [List.getLast?_eq_none_iff]
    apply List.filter_eq_nil_iff.mpr
    intro c hc
    simp [hall c hc]

/-- The OS-side behaviour of one subprocess launch: whether `spawnv` throws,
and the exit status that the spawned process eventually reports to the
asynchronous `communicate_utf8_async` callback. -/
structure SpawnEnv where
  spawn_ok : Bool
  exit_status : Int
deriving DecidableEq, Repr

/-- Value computed inside the `communicate_utf8_async` callback of
`execute_async`: the real exit status.  The return value of the callback is
discarded by GLib, so it never reaches the caller of `execute_async`. -/
def communicate_callback (env : SpawnEnv) : Int :=
  env.exit_status

/-- Embeds `execute_async(command)`: rethrows when the spawn fails, otherwise falls
through to the final `return 0` — the exit status seen by
`communicate_callback` is dropped. -/
def execute_async (env : SpawnEnv) : Except String Int :=
  if env.spawn_ok then Except.ok 0 else Except.error "spawn failed"

/-- Embeds `StickyNotesInterface.launch()`: given the launch-lock and the spawn
behaviour, returns `(return value, new launch lock)`; the JS `return;` taken
under the lock is `none`.  The return value and the new lock are both
`!Boolean(exit)`. -/
def launch (launch_lock : Bool) (env : SpawnEnv) :
    Except String (Option Bool × Bool) :=
  if launch_lock then
    Except.ok (none, launch_lock)
  else
    match execute_async env with
    | Except.error e => Except.error e
    | Except.ok exit => Except.ok (some (exit == 0), exit == 0)

/-- C2 (code bug).  With the launch lock clear and a successful spawn of a
subprocess that exits with status 1 (failure), `launch()` still returns
`true`: `execute_async` returns `0` unconditionally after spawning, the real
exit status being visible only to the discarded asynchronous callback. -/
theorem launch_ignores_exit_status :
    launch false { spawn_ok := true, exit_status := 1 } =
      Except.ok (some true, true) ∧
    communicate_callback { spawn_ok := true, exit_status := 1 } = 1 := by
  exact ⟨rfl, rfl⟩

/-! ### `lib/globals.js` -/

/-- Candidate command names tried by `get_version` and by the process field
of `AppInfo`. -/
def sticky_candidates : List String :=
  ["com.vixalien.sticky", "com.vixalien.st"]

/-- Embeds `Visibility.Never`. -/
def Visibility.Never : Int := 0

/-- Embeds `Visibility.Dynamic`. -/
def Visibility.Dynamic : Int := 1

/-- Embeds `Visibility.Always`. -/
def Visibility.Always : Int := 2

/-- Embeds the JS split of the output on the newline character, element 0:
the prefix of `output` up to (excluding) the first newline, the whole string
when it has none. -/
def first_line (s : String) : String :=
  String.mk (s.toList.takeWhile (fun ch => ch != '\n'))

/-- Embeds `get_version()`.  Here `execute` stands for `utils.execute`
(`null` on error is `none`); `ver` is the first line of the output; a `none`
output would make the JS split call throw a `TypeError`, embedded as
`Except.error`. -/
def get_version (avail : String → Bool) (execute : String → Option String) :
    Except String String :=
  match first_available avail sticky_candidates with
  | some cmd =>
      match execute (cmd ++ " -v") with
      | none => Except.error "TypeError: cannot read split of null"
      | some out =>
          let ver := first_line out
          if ver.length < 10 then Except.ok ver else Except.ok ""
  | none => Except.ok ""

/-- C7.  `get_version` returns the first line of the `-v` output when a
command is available (and the CLI call produced output) and that line is
shorter than 10 characters; it returns `""` when no command is available, or
when the first output line has 10 or more characters. -/
theorem get_version_spec (avail : String → Bool) (execute : String → Option String) :
    (∀ cmd out, first_available avail sticky_candidates = some cmd →
      execute (cmd ++ " -v") = some out →
      ((first_line out).length < 10 →
        get_version avail execute = Except.ok (first_line out)) ∧
      ((first_line out).length ≥ 10 →
        get_version avail execute = Except.ok "")) ∧
    (first_available avail sticky_candidates = none →
      get_version avail execute = Except.ok "") := by
  constructor
  · intro cmd out hcmd hout
    constructor
    · intro hlen
      simp only [get_version, hcmd, hout]
      rw [if_pos hlen]
    · intro hlen
      simp only [get_version, hcmd, hout]
      rw [if_neg (Nat.not_lt.mpr hlen)]
  · intro hnone
    simp [get_version, hnone]

/-- Witness for C7: with only `com.vixalien.sticky` available and a CLI that
prints `0.1.2`, `get_version` returns `0.1.2`. -/
theorem get_version_spec_witness :
    get_version (fun c => c == "com.vixalien.sticky")
      (fun _ => some "0.1.2\nextra") = Except.ok "0.1.2" := by
  have h := (get_version_spec (fun c => c == "com.vixalien.sticky")
      (fun _ => some "0.1.2\nextra")).1 "com.vixalien.sticky" "0.1.2\nextra"
      (by decide) rfl
  have h2 := h.1 (by decide)
  rw [h2]
  exact congrArg Except.ok (by decide)

/-! ### `shell/stickyNotesInterface.js` -/

/-- Embeds the wm-class field of `AppInfo`. -/
def AppInfo_wm_class : String := "com.vixalien.sticky"

/-- The icon of the panel indicator, as cached by `_loadIcons`:
`this._active_icon` or `this._inactive_icon`. -/
inductive PanelIcon where
  | active_icon : PanelIcon
  | inactive_icon : PanelIcon
deriving DecidableEq, Repr

/-- Combined state of `StickyNotesInterface` (fields `_n_windows`,
`_keep_alive`, `_launch_lock`, `_launch_tasks` as its length) and of the
`St.Icon` `gicon` of the indicator (updated through the `notify::active`
connection to `StickyNotesIndicator._updateIcon`). -/
structure SNState where
  n_windows : Nat
  keep_alive : Bool
  launch_lock : Bool
  launch_tasks : Nat
  gicon : PanelIcon
deriving DecidableEq, Repr

/-- Embeds `get active()`, that is `Boolean(this._n_windows)`. -/
def SNState.active (s : SNState) : Bool :=
  s.n_windows != 0

/-- `StickyNotesIndicator._updateIcon`: picks the cached active or inactive
icon from `this._sticky_notes.active`. -/
def updateIcon (active : Bool) : PanelIcon :=
  if active then PanelIcon.active_icon else PanelIcon.inactive_icon

/-- Embeds `StickyNotesInterface.refresh()`, including the effects of the signals it
emits: each `window-opened` emission synchronously runs the default handler
`on_window_opened` (runs and clears `_launch_tasks`, clears `_launch_lock`),
and the `notify::active` emission runs `_updateIcon` on the indicator.  When
the interface
turns inactive with `keep-alive` set and the lock clear, `launch()` is
invoked; the returned flag records that invocation (the spawn is assumed not
to throw, in which case `execute_async` returns `0` and the lock is set).
Returns the new state and whether `launch()` was invoked. -/
def refresh (actors : List WindowActor) (s : SNState) : SNState × Bool :=
  let n := MultiWindowHandler.count actors AppInfo_wm_class false
  if s.n_windows = n then
    (s, false)
  else
    let wdiff : Int := (n : Int) - (s.n_windows : Int)
    let emitted :=
      if wdiff ≠ 0 then
        (MultiWindowHandler.get actors AppInfo_wm_class wdiff true).length
      else 0
    let lock1 := if emitted ≠ 0 then false else s.launch_lock
    let tasks1 := if emitted ≠ 0 then 0 else s.launch_tasks
    let s1 : SNState :=
      { n_windows := n, keep_alive := s.keep_alive, launch_lock := lock1,
        launch_tasks := tasks1, gicon := updateIcon (n != 0) }
    if s1.active then
      (s1, false)
    else if s1.keep_alive = true ∧ lock1 = false then
      ({ s1 with launch_lock := true, launch_tasks := tasks1 + 1 }, true)
    else
      (s1, false)

theorem getLoop_nil_of_matching_nil (c : String) (n : Int) (l : List WindowActor)
    (k : Nat) (h : MultiWindowHandler.matching l c = []) :
    MultiWindowHandler.getLoop c n l k = [] := by
  induction l generalizing k with
  | nil => rfl
  | cons a rest ih =>
      simp only [MultiWindowHandler.matching, List.map_cons, List.filter_cons] at h
      by_cases hm : a.get_meta_window.get_wm_class = c
      · simp [hm] at h
      · have hne : (a.get_meta_window.get_wm_class == c) = false := by simpa using hm
        simp only [hne, Bool.false_eq_true, if_false] at h
        simp [MultiWindowHandler.getLoop, hne, ih k h]

theorem count_zero_get_nil (actors : List WindowActor) (c : String) (n : Int)
    (nf : Bool) (h : MultiWindowHandler.count actors c false = 0) :
    MultiWindowHandler.get actors c n nf = [] := by
  have hm : MultiWindowHandler.matching actors c = [] := by
    have := MultiWindowHandler.countLoop_eq_matching_length c actors
    rw [MultiWindowHandler.count] at h
    rw [h] at this
    exact (List.eq_nil_of_length_eq_zero this.symm)
  rcases nf with _ | _
  · exact getLoop_nil_of_matching_nil c n actors 0 hm
  · refine getLoop_nil_of_matching_nil c n actors.reverse 0 ?_
    rw [MultiWindowHandler.matching_reverse, hm, List.reverse_nil]

/-- C5.  `refresh()` invokes `launch()` exactly when `keep-alive` is set, the
launch lock is clear, and the matching-window count just transitioned from
nonzero to zero; in every other state it does not spawn the launch command. -/
theorem refresh_launch_iff_transition_to_zero (actors : List WindowActor) (s : SNState) :
    (refresh actors s).2 =
      (s.keep_alive && !s.launch_lock && (s.n_windows != 0) &&
        (MultiWindowHandler.count actors AppInfo_wm_class false == 0)) := by
  by_cases heq : s.n_windows = MultiWindowHandler.count actors AppInfo_wm_class false
  · have hL : (refresh actors s).2 = false := by
      simp [refresh, heq]
    rw [hL]
    rcases Nat.eq_zero_or_pos (MultiWindowHandler.count actors AppInfo_wm_class false)
      with hz | hp
    · rw [hz] at heq
      simp [heq]
    · have hne : (MultiWindowHandler.count actors AppInfo_wm_class false == 0) = false := by
        simpa using hp.ne'
      simp [hne]
  · rcases Nat.eq_zero_or_pos (MultiWindowHandler.count actors AppInfo_wm_class false)
      with hz | hp
    · have hget : ∀ m : Int, MultiWindowHandler.get actors AppInfo_wm_class m true = [] :=
        fun m => count_zero_get_nil actors _ m true hz
      have hnz : s.n_windows ≠ 0 := by
        rw [hz] at heq; exact heq
      by_cases hk : s.keep_alive <;> by_cases hl : s.launch_lock <;>
        simp [refresh, SNState.active, hz, hget, heq, hnz, hk, hl]
    · have hne : (MultiWindowHandler.count actors AppInfo_wm_class false == 0) = false := by
        simpa using hp.ne'
      simp [refresh, SNState.active, heq, hne, hp.ne']

/-- C4.  After every `refresh()`, `active` holds iff the number of windows
with the `WM_CLASS` of the application is nonzero, and the indicator icon is the
active icon exactly when `active` holds (inactive icon otherwise), provided
the icon was consistent with `active` before the call (as `_init` establishes
by calling `_updateIcon`, and as this theorem preserves). -/
theorem refresh_active_iff_windows_and_icon (actors : List WindowActor) (s : SNState)
    (hicon : s.gicon = updateIcon s.active) :
    ((refresh actors s).1.active = true ↔
      MultiWindowHandler.count actors AppInfo_wm_class false ≠ 0) ∧
    (refresh actors s).1.gicon = updateIcon (refresh actors s).1.active := by
  by_cases heq : s.n_windows = MultiWindowHandler.count actors AppInfo_wm_class false
  · have hL : (refresh actors s).1 = s := by
      simp [refresh, heq]
    rw [hL]
    refine ⟨?_, hicon⟩
    rw [← heq]
    simp [SNState.active]
  · have hn : (refresh actors s).1.n_windows =
        MultiWindowHandler.count actors AppInfo_wm_class false ∧
        (refresh actors s).1.gicon =
          updateIcon ((MultiWindowHandler.count actors AppInfo_wm_class false : Nat) != 0) := by
      simp only [refresh]
      rw [if_neg heq]
      constructor <;> (split_ifs <;> rfl)
    refine ⟨?_, ?_⟩
    · rw [SNState.active, hn.1]
      simp
    · rw [hn.2, SNState.active, hn.1]

/-- A concrete consistent interface state: no windows, inactive icon. -/
def snDemo : SNState :=
  { n_windows := 0, keep_alive := false, launch_lock := false,
    launch_tasks := 0, gicon := PanelIcon.inactive_icon }

/-! ### `shell/backgroundMenuOverride.js`

The background menus of `Main.layoutManager._bgManagers` are embedded as
lists of items; `apply` prepends a separator and a New Note entry to every
menu (tagging each with the index of its manager, since `destroy()` removes
exactly the item object the fields reference), and `revert` destroys only the
items referenced by the fields, i.e. those created for the last manager. -/

/-- One entry of a background menu: a stock GNOME entry, or a New Note entry
or separator injected by the override for the manager with index `t`. -/
inductive BItem where
  | default (i : Nat) : BItem
  | newNote (t : Nat) : BItem
  | separator (t : Nat) : BItem
deriving DecidableEq, Repr

/-- State of the override: one item list per background manager, and the
manager index whose injected items `this._new_note_menu_item` /
`this._separator_menu_item` currently reference (the last one `apply`
visited). -/
structure BGState where
  menus : List (List BItem)
  item_tag : Option Nat
deriving DecidableEq, Repr

namespace BackgroundMenuOverride

/-- Embeds `_isOverriden()`: the first background menu has more than
`_DEFAULT_BGMENU_ITEMS = 4` entries. -/
def isOverriden (s : BGState) : Bool :=
  decide ((s.menus.headD []).length > 4)

/-- Loop of `apply` over `_bgManagers`: `addMenuItem(separator, 0)` then
`addMenuItem(new_note, 0)` on each menu, items tagged by manager index. -/
def overrideMenus : Nat → List (List BItem) → List (List BItem)
  | _, [] => []
  | i, m :: rest => (BItem.newNote i :: BItem.separator i :: m) :: overrideMenus (i + 1) rest

/-- Embeds `apply()`: no-op when already overridden, otherwise injects the
entries into every menu; the item fields end up referencing the last
manager. -/
def apply (s : BGState) : BGState :=
  if isOverriden s then s
  else { menus := overrideMenus 0 s.menus, item_tag := some (s.menus.length - 1) }

/-- Embeds `revert()`: no-op when not overridden, otherwise destroys exactly
the two referenced items (the JS fields are not nulled afterwards). -/
def revert (s : BGState) : BGState :=
  if isOverriden s = false then s
  else
    match s.item_tag with
    | none => s
    | some t =>
        { menus := s.menus.map (fun m =>
            m.filter (fun it => !(it == BItem.newNote t || it == BItem.separator t))),
          item_tag := s.item_tag }

/-- The condition of `_update`:
`visible === Always || (visible === Dynamic && active)`. -/
def shouldOverride (visible : Int) (active : Bool) : Bool :=
  (visible == Visibility.Always) || ((visible == Visibility.Dynamic) && active)

/-- Embeds `_update()`. -/
def update (visible : Int) (active : Bool) (s : BGState) : BGState :=
  if shouldOverride visible active && !(isOverriden s) then apply s
  else if !(shouldOverride visible active) && isOverriden s then revert s
  else s

end BackgroundMenuOverride

/-- Tests whether a menu contains a New Note entry. -/
def hasNewNote (m : List BItem) : Bool :=
  m.any (fun it => match it with | BItem.newNote _ => true | _ => false)

/-- Tests whether a menu consists of stock entries only. -/
def onlyDefaults (m : List BItem) : Bool :=
  m.all (fun it => match it with | BItem.default _ => true | _ => false)

/-- The stock GNOME background menu assumed by `_DEFAULT_BGMENU_ITEMS`. -/
def bgDefaultMenu : List BItem :=
  [BItem.default 0, BItem.default 1, BItem.default 2, BItem.default 3]

/-- A session with two background managers (two monitors), both default. -/
def bgTwoMonitors : BGState :=
  { menus := [bgDefaultMenu, bgDefaultMenu], item_tag := none }

/-- C3 (counterexample).  With two background managers, apply the override
(setting Always), then switch the setting to Never and run `_update` again:
`revert` destroys only the items of the last manager, so the first background
menu still contains the New Note entry although the setting says it must not
be present. -/
theorem backgroundMenu_update_counterexample :
    hasNewNote (((BackgroundMenuOverride.update 0 false
        (BackgroundMenuOverride.update 2 false bgTwoMonitors)).menus).headD [])
      = true ∧
    BackgroundMenuOverride.shouldOverride 0 false = false := by
  decide

theorem onlyDefaults_hasNewNote (m : List BItem) (h : onlyDefaults m = true) :
    hasNewNote m = false := by
  induction m with
  | nil => rfl
  | cons it rest ih =>
      cases it <;> simp_all [hasNewNote, onlyDefaults]

theorem onlyDefaults_filter (t : Nat) (m : List BItem) (h : onlyDefaults m = true) :
    m.filter (fun it => !(it == BItem.newNote t || it == BItem.separator t)) = m := by
  induction m with
  | nil => rfl
  | cons it rest ih =>
      cases it with
      | default i =>
          simp only [onlyDefaults, List.all_cons, Bool.and_eq_true] at h
          rw [List.filter_cons]
          have hkeep : (!(BItem.default i == BItem.newNote t ||
              BItem.default i == BItem.separator t)) = true := by simp
          rw [if_pos hkeep, ih (by simpa [onlyDefaults] using h.2)]
      | newNote u => simp [onlyDefaults] at h
      | separator u => simp [onlyDefaults] at h

/-- Invariant of a single-monitor session: one background menu, either the
four stock entries, or the override (tagged 0, referenced by the fields) on
top of them. -/
def SingleManagerInv (s : BGState) : Prop :=
  ∃ base, onlyDefaults base = true ∧ base.length = 4 ∧
    (s.menus = [base] ∨
      (s.menus = [BItem.newNote 0 :: BItem.separator 0 :: base] ∧
        s.item_tag = some 0))

/-- C3 (amended).  When there is a single background manager, after every
`_update` the New Note entry is present in the background menu iff the
override-background-menu setting is Always, or Dynamic while Sticky Notes is
active; the single-manager invariant is preserved.  (With several background
managers the original claim fails: see the counterexample.) -/
theorem backgroundMenu_update_single_manager (v : Int) (a : Bool) (s : BGState)
    (hs : SingleManagerInv s) :
    hasNewNote ((BackgroundMenuOverride.update v a s).menus.headD []) =
      BackgroundMenuOverride.shouldOverride v a ∧
    SingleManagerInv (BackgroundMenuOverride.update v a s) := by
  obtain ⟨base, hod, hlen, hcase⟩ := hs
  rcases hcase with hplain | ⟨hover, htag⟩
  · have hov : BackgroundMenuOverride.isOverriden s = false := by
      simp [BackgroundMenuOverride.isOverriden, hplain, hlen]
    by_cases hsh : BackgroundMenuOverride.shouldOverride v a = true
    · have hup : BackgroundMenuOverride.update v a s = BackgroundMenuOverride.apply s := by
        simp [BackgroundMenuOverride.update, hsh, hov]
      have hap : BackgroundMenuOverride.apply s =
          { menus := [BItem.newNote 0 :: BItem.separator 0 :: base], item_tag := some 0 } := by
        simp [BackgroundMenuOverride.apply, hov, hplain,
          BackgroundMenuOverride.overrideMenus]
      rw [hup, hap, hsh]
      constructor
      · simp [hasNewNote]
      · exact ⟨base, hod, hlen, Or.inr ⟨rfl, rfl⟩⟩
    · have hshf : BackgroundMenuOverride.shouldOverride v a = false := by
        simpa using hsh
      have hup : BackgroundMenuOverride.update v a s = s := by
        simp [BackgroundMenuOverride.update, hshf, hov]
      rw [hup, hshf, hplain]
      constructor
      · simpa using onlyDefaults_hasNewNote base hod
      · exact ⟨base, hod, hlen, Or.inl hplain⟩
  · have hov : BackgroundMenuOverride.isOverriden s = true := by
      simp [BackgroundMenuOverride.isOverriden, hover, hlen]
    by_cases hsh : BackgroundMenuOverride.shouldOverride v a = true
    · have hup : BackgroundMenuOverride.update v a s = s := by
        simp [BackgroundMenuOverride.update, hsh, hov]
      rw [hup, hsh, hover]
      constructor
      · simp [hasNewNote]
      · exact ⟨base, hod, hlen, Or.inr ⟨hover, htag⟩⟩
    · have hshf : BackgroundMenuOverride.shouldOverride v a = false := by
        simpa using hsh
      have hup : BackgroundMenuOverride.update v a s = BackgroundMenuOverride.revert s := by
        simp [BackgroundMenuOverride.update, hshf, hov]
      have hrev : BackgroundMenuOverride.revert s = { menus := [base], item_tag := some 0 } := by
        simp only [BackgroundMenuOverride.revert, hov, Bool.true_eq_false, if_false, htag,
          hover]
        rw [List.map_cons, List.map_nil, List.filter_cons, List.filter_cons]
        have h1 : (!(BItem.newNote 0 == BItem.newNote 0 ||
            BItem.newNote 0 == BItem.separator 0)) = false := by decide
        have h2 : (!(BItem.separator 0 == BItem.newNote 0 ||
            BItem.separator 0 == BItem.separator 0)) = false := by decide
        rw [if_neg (by simp [h1]), if_neg (by simp [h2]),
          onlyDefaults_filter 0 base hod]
      rw [hup, hrev, hshf]
      constructor
      · simpa using onlyDefaults_hasNewNote base hod
      · exact ⟨base, hod, hlen, Or.inl rfl⟩

/-- Witness for the amended C3: turning the override on over a single default
background menu makes the New Note entry appear. -/
theorem backgroundMenu_update_single_manager_witness :
    hasNewNote ((BackgroundMenuOverride.update 2 false
        { menus := [bgDefaultMenu], item_tag := none }).menus.headD []) =
      BackgroundMenuOverride.shouldOverride 2 false ∧
    SingleManagerInv (BackgroundMenuOverride.update 2 false
        { menus := [bgDefaultMenu], item_tag := none }) := by
  exact backgroundMenu_update_single_manager 2 false
    { menus := [bgDefaultMenu], item_tag := none }
    ⟨bgDefaultMenu, by decide, by decide, Or.inl rfl⟩

/-- Witness for C4 at an empty compositor and a consistent initial state. -/
theorem refresh_active_iff_windows_and_icon_witness :
    ((refresh [] snDemo).1.active = true ↔
      MultiWindowHandler.count [] AppInfo_wm_class false ≠ 0) ∧
    (refresh [] snDemo).1.gicon = updateIcon (refresh [] snDemo).1.active := by
  exact refresh_active_iff_windows_and_icon [] snDemo (by decide)

/-! ### `StickyNotesIndicator._onButtonPress` -/

/-- Mouse buttons distinguished by the `switch` on `event.get_button()`. -/
inductive MouseButton where
  | primary : MouseButton
  | middle : MouseButton
  | secondary : MouseButton
  | other : MouseButton
deriving DecidableEq, Repr

/-- Outcome of one `_onButtonPress` call: the quick action executed through
`menu_override` (if any, by numeric `StickyNotesAction` id) and the value of
`this._last_event` afterwards. -/
structure PressOutcome where
  executed : Option Nat
  last_event : Option Int
deriving DecidableEq, Repr

/-- Embeds `_onButtonPress(_, event)`.  `bindings` holds the bound quick
action per button (`this._bindings`, `null` entries as `none`), `last` is
`this._last_event` (`null` as `none`, and `0` falsy like `null`), `t` is
`event.get_time()` in milliseconds. -/
def onButtonPress (bindings : MouseButton → Option Nat) (last : Option Int)
    (t : Int) (btn : MouseButton) : PressOutcome :=
  if truthy_id last = true ∧ t - last.getD 0 < 200 then
    { executed := none, last_event := last }
  else
    let action :=
      match btn with
      | MouseButton.primary => bindings MouseButton.primary
      | MouseButton.middle => bindings MouseButton.middle
      | MouseButton.secondary => bindings MouseButton.secondary
      | MouseButton.other => none
    { executed := action, last_event := some t }

/-- Quick-action bindings with every button bound to action id 1. -/
def demoBindings : MouseButton → Option Nat :=
  fun _ => some 1

/-- C6 (counterexample).  A handled press at time 0 stores `0` as the
last-event timestamp, but `0` is falsy in JS, so a second press only 100 ms
later is not debounced: its bound quick action runs although it arrived less
than 200 ms after the previously handled button press. -/
theorem onButtonPress_counterexample :
    (onButtonPress demoBindings none 0 MouseButton.primary).last_event = some 0 ∧
    (onButtonPress demoBindings (some 0) 100 MouseButton.primary).executed = some 1 ∧
    ((100 : Int) - 0 < 200) := by
  decide

/-- C6 (amended).  For every button press arriving less than 200 ms after the
previously handled event, provided the stored timestamp of that event is
nonzero, no bound quick action is executed and the stored timestamp is left
unchanged (so only handled, non-ignored events update it). -/
theorem onButtonPress_debounce (bindings : MouseButton → Option Nat)
    (l t : Int) (btn : MouseButton) (hl : l ≠ 0) (ht : t - l < 200) :
    onButtonPress bindings (some l) t btn =
      { executed := none, last_event := some l } := by
  have htr : truthy_id (some l) = true := by
    simp [truthy_id, hl]
  simp [onButtonPress, htr, ht]

/-- Witness for the amended C6 at concrete timestamps 1000 and 1100. -/
theorem onButtonPress_debounce_witness :
    onButtonPress demoBindings (some 1000) 1100 MouseButton.primary =
      { executed := none, last_event := some 1000 } := by
  exact onButtonPress_debounce demoBindings 1000 1100 MouseButton.primary
    (by decide) (by decide)


/-! ### Concrete instantiations of the universally quantified theorems -/

/-- A small concrete compositor: two Sticky Notes windows around an unrelated
window. -/
def demoActors : List WindowActor :=
  [{ meta_window := { wm_class := "com.vixalien.sticky", hidden := false } },
   { meta_window := { wm_class := "org.gnome.Nautilus", hidden := false } },
   { meta_window := { wm_class := "com.vixalien.sticky", hidden := true } }]

/-- Witness for C1 at the concrete compositor, one window, newest first. -/
theorem get_matches_filter_take_witness :
    MultiWindowHandler.get demoActors "com.vixalien.sticky" ((1 : Nat) : Int) true =
      (if (1 : Nat) = 0 then id else fun l => List.take 1 l)
        (MultiWindowHandler.matching (if true then demoActors.reverse else demoActors)
          "com.vixalien.sticky") := by
  exact MultiWindowHandler.get_matches_filter_take demoActors "com.vixalien.sticky" 1 true

/-- Witness for C8 at the concrete compositor. -/
theorem count_eq_get_length_witness :
    MultiWindowHandler.count demoActors "com.vixalien.sticky" false =
      (MultiWindowHandler.get demoActors "com.vixalien.sticky" 0 false).length ∧
    MultiWindowHandler.count demoActors "com.vixalien.sticky" false =
      (MultiWindowHandler.get demoActors "com.vixalien.sticky" 0 true).length := by
  exact MultiWindowHandler.count_eq_get_length demoActors "com.vixalien.sticky"

/-- An interface state with one open note, keep-alive on and the lock clear:
closing the last note must relaunch. -/
def snKeepAlive : SNState :=
  { n_windows := 1, keep_alive := true, launch_lock := false,
    launch_tasks := 0, gicon := PanelIcon.active_icon }

/-- Witness for C5: on an empty compositor the state `snKeepAlive` relaunches. -/
theorem refresh_launch_iff_transition_to_zero_witness :
    (refresh [] snKeepAlive).2 =
      (snKeepAlive.keep_alive && !snKeepAlive.launch_lock &&
        (snKeepAlive.n_windows != 0) &&
        (MultiWindowHandler.count [] AppInfo_wm_class false == 0)) := by
  exact refresh_launch_iff_transition_to_zero [] snKeepAlive

/-- Witness for C9 at a concrete availability predicate and command list. -/
theorem first_available_spec_witness :
    first_available (fun c => c == "b") ["a", "b", "c"] =
      (["a", "b", "c"].filter (fun c => c == "b")).getLast? ∧
    (first_available (fun c => c == "b") ["a", "b", "c"] = none ↔
      ∀ c ∈ ["a", "b", "c"], (fun c => c == "b") c = false) := by
  exact first_available_spec (fun c => c == "b") ["a", "b", "c"]
